import Mathlib

/-!
Shallow embedding of `NERD/NER.py` (a single-file active-learning NER
labelling tool) and proofs about it.  Python strings are modelled as Lean
`String` (a wrapper around `List Char`); the inputs appearing in the spec
are ASCII, and the character-class helpers below follow CPython semantics
on ASCII text.  Fallible Python code (index errors, dictionary key errors)
is modelled with `Option`: `none` marks an execution path on which the
Python program raises.  External collaborators (the `sklearn_crfsuite`
model, the NLTK tokeniser and POS tagger, Flask, file IO) are outside the
embedding; the functions below embed the data transformations the source
performs around them.

The file is organised as definitions first, then theorems.
-/

/-! ## Python string helpers -/

/-- CPython `str.startswith`: `charsStart s.data pre.data` is true when the
character list `pre` is an initial segment of `s`. -/
def charsStart : List Char → List Char → Bool
  | _, [] => true
  | [], _ :: _ => false
  | c :: cs, p :: ps => c == p && charsStart cs ps

/-- Python `s.startswith(pre)`. -/
def pyStarts (s pre : String) : Bool := charsStart s.data pre.data

/-- Python `s.lower()` on ASCII text. -/
def pyLower (s : String) : String := ⟨s.data.map Char.toLower⟩

/-- Python `s[-n:]`: the last `n` characters, or the whole string when it is
shorter than `n` (truncated `Nat` subtraction gives exactly that). -/
def lastN (n : Nat) (s : String) : String := ⟨s.data.drop (s.data.length - n)⟩

/-- Python `s.isdigit()` on ASCII: non-empty and all characters digits. -/
def pyIsDigit (s : String) : Bool := !s.data.isEmpty && s.data.all Char.isDigit

/-- Python `s.isalpha()` on ASCII: non-empty and all characters letters. -/
def pyIsAlphaStr (s : String) : Bool := !s.data.isEmpty && s.data.all Char.isAlpha

/-- Python `s.isupper()` on ASCII: at least one cased (letter) character and
no lowercase character. -/
def pyIsUpper (s : String) : Bool :=
  s.data.any Char.isAlpha && s.data.all (fun c => !c.isLower)

/-- Python `s.islower()` on ASCII: at least one cased (letter) character and
no uppercase character. -/
def pyIsLower (s : String) : Bool :=
  s.data.any Char.isAlpha && s.data.all (fun c => !c.isUpper)

/-- Worker for Python `s.istitle()` on ASCII: an uppercase letter may only
follow an uncased character, a lowercase letter may only follow a cased one;
the boolean argument records whether the previous character was cased. -/
def istitleGo : List Char → Bool → Bool
  | [], _ => true
  | c :: cs, prevCased =>
    if c.isUpper then !prevCased && istitleGo cs true
    else if c.isLower then prevCased && istitleGo cs true
    else istitleGo cs false

/-- Python `s.istitle()` on ASCII: title-cased and at least one cased char. -/
def pyIsTitle (s : String) : Bool := s.data.any Char.isAlpha && istitleGo s.data false

/-- Python `' '.join(xs)`. -/
def joinSp : List String → String
  | [] => ""
  | [x] => x
  | x :: y :: xs => x ++ " " ++ joinSp (y :: xs)

/-- Python `tag[2:]`, used throughout the source to strip a BILOU marker
"B-", "I-", "L-" or "U-" from a tag string. -/
def tagSuffix (tag : String) : String := ⟨tag.data.drop 2⟩

/-! ## `BaseNerTagger._is_alpha_and_numeric` (NER.py lines 59-92) -/

/-- Embedding of `BaseNerTagger._is_alpha_and_numeric`: classify a string as
DIGIT / ALPHA_UPPER / ALPHA_LOWER / ALPHA / ALPHA_NUM / EMPTY, or the empty
string when none applies.  The `elif len(string) > 0` branch inspects only
the first and the last character (`toks = [string[0], string[-1]]`), adding
1 for a digit and subtracting 1 for a letter, and answers ALPHA_NUM exactly
when the two contributions cancel. -/
def is_alpha_and_numeric (s : String) : String :=
  if pyIsDigit s then "DIGIT"
  else if pyIsAlphaStr s then
    if pyIsUpper s then "ALPHA_UPPER"
    else if pyIsLower s then "ALPHA_LOWER"
    else "ALPHA"
  else
    match s.data with
    | [] => "EMPTY"
    | c :: cs =>
      let lastc := cs.getLastD c
      let a1 : Int := if c.isDigit then 1 else if c.isAlpha then -1 else 0
      let a2 : Int := if lastc.isDigit then 1 else if lastc.isAlpha then -1 else 0
      if a1 + a2 = 0 then "ALPHA_NUM" else ""

/-! ## `BaseNerTagger._word2features` (NER.py lines 94-177) -/

/-- A feature value: the Python code stores strings, booleans and the float
bias `1.0` (modelled as the rational `1`) in one dictionary. -/
inductive FVal where
  | s (v : String)
  | b (v : Bool)
  | q (v : ℚ)
deriving DecidableEq

/-- The per-token features of `_word2features` that describe the token
itself, in dictionary insertion order. -/
def baseFeats (word postag : String) : List (String × FVal) :=
  [("bias", FVal.q 1),
   ("word.lower()", FVal.s (pyLower word)),
   ("word[-3:]", FVal.s (lastN 3 word)),
   ("word[-2:]", FVal.s (lastN 2 word)),
   ("word.isupper()", FVal.b (pyIsUpper word)),
   ("word.istitle()", FVal.b (pyIsTitle word)),
   ("word.isdigit()", FVal.b (pyIsDigit word)),
   ("word.is_alphanum", FVal.s (is_alpha_and_numeric word)),
   ("postag", FVal.s postag)]

/-- The neighbour features of `_word2features` for the token at relative
offset `pre` (one of "-1:", "-2:", "+1:", "+2:"), in insertion order. -/
def neighborFeats (pre word postag : String) : List (String × FVal) :=
  [(pre ++ "word.lower()", FVal.s (pyLower word)),
   (pre ++ "word[-3:]", FVal.s (lastN 3 word)),
   (pre ++ "word[-2:]", FVal.s (lastN 2 word)),
   (pre ++ "word.istitle()", FVal.b (pyIsTitle word)),
   (pre ++ "word.isupper()", FVal.b (pyIsUpper word)),
   (pre ++ "postag", FVal.s postag),
   (pre ++ "word.is_alphanum", FVal.s (is_alpha_and_numeric word))]

/-- Embedding of `BaseNerTagger._word2features sent i`.  The feature
dictionary is modelled as an association list in insertion order (all keys
are distinct, so `update` is plain append).  `sent[i]` is modelled with
`getD`; the Python code raises `IndexError` for `i` out of range, and every
use below keeps `i` in range.  The window guards copy the Python integer
comparisons (`i > 0`, `i > 1`, `i < len(sent) - 1`, `i < len(sent) - 2`);
for sequences of length 0 or 1 truncated `Nat` subtraction agrees with the
Python comparison against a possibly negative right-hand side. -/
def word2features (sent : List (String × String)) (i : Nat) : List (String × FVal) :=
  let word := (sent.getD i ("", "")).1
  let postag := (sent.getD i ("", "")).2
  baseFeats word postag
  ++ (if 0 < i then
        neighborFeats "-1:" (sent.getD (i - 1) ("", "")).1 (sent.getD (i - 1) ("", "")).2
      else [("BOS", FVal.b true)])
  ++ (if 1 < i then
        neighborFeats "-2:" (sent.getD (i - 2) ("", "")).1 (sent.getD (i - 2) ("", "")).2
      else [])
  ++ (if i < sent.length - 1 then
        neighborFeats "+1:" (sent.getD (i + 1) ("", "")).1 (sent.getD (i + 1) ("", "")).2
      else [("EOS", FVal.b true)])
  ++ (if i < sent.length - 2 then
        neighborFeats "+2:" (sent.getD (i + 2) ("", "")).1 (sent.getD (i + 2) ("", "")).2
      else [])

/-- Embedding of `BaseNerTagger._sent2features`. -/
def sent2features (sent : List (String × String)) : List (List (String × FVal)) :=
  (List.range sent.length).map (fun i => word2features sent i)

/-! ## `BaseNerTagger._get_prediction_uncertainity` (NER.py lines 197-209)

The scorer receives, for each token, a dictionary from label to probability
(the output of `CRF.predict_marginals`); `entropy(list(tok.values()))` is
`scipy.stats.entropy`, which normalises the value list and sums
`-p * log p` in base e.  A token distribution is modelled as its list of
probability values (taking `.values()` of a dictionary is exactly what the
source does, so label identity is already gone at this point).  Real-number
floating arithmetic is modelled with `ℝ`. -/

/-- One summand of `scipy.stats.entropy`: `-x * log x`, with the `x = 0`
summand equal to 0 (in Mathlib `Real.log 0 = 0`, so no special case is
needed). -/
noncomputable def entr (x : ℝ) : ℝ := -(x * Real.log x)

/-- `scipy.stats.entropy(probabilities)`: normalise the value list by its
sum, then sum `-p * log p` over the normalised values (base e). -/
noncomputable def tokenEntropy (probs : List ℝ) : ℝ :=
  (probs.map (fun p => entr (p / probs.sum))).sum

/-- Python `max(un)` over a non-empty list; `none` models the `ValueError`
that `max` raises on an empty list (unreachable in the source because the
empty prediction returns earlier). -/
noncomputable def pymax : List ℝ → Option ℝ
  | [] => none
  | x :: xs => some (xs.foldl max x)

/-- The reduction stage of `_get_prediction_uncertainity`: `max(un)` for
mode "max", `sum(un) / len(un)` for mode "mean"; any other mode falls off
the end of the Python function and returns `None`. -/
noncomputable def reduceUncertainty (un : List ℝ) (mode : String) : Option ℝ :=
  if mode = "max" then pymax un
  else if mode = "mean" then some (un.sum / un.length)
  else none

/-- Embedding of `BaseNerTagger._get_prediction_uncertainity`: an empty
prediction scores 0; otherwise map `tokenEntropy` over the per-token
distributions and reduce by the chosen mode. -/
noncomputable def get_prediction_uncertainity (pred : List (List ℝ)) (mode : String) :
    Option ℝ :=
  if pred.length = 0 then some 0
  else reduceUncertainty (pred.map tokenEntropy) mode

/-! ## `BaseNerTagger.query_new_example` sampling stage (NER.py lines 246-265)

Randomness is abstracted to the set of indices a draw can produce: with a
pool of `n` unlabelled examples the source runs
`np.random.randint(0, n - 1, size=250)` (unless `n == 1`, which uses the
fixed sample `[0]`), and `np.random.randint`'s upper bound is exclusive, so
each of the 250 draws ranges over `0 .. n - 2`. -/

/-- Modelled from the source: the set of pool indices that a single draw of
the `query_new_example` subsample can produce for a pool of `n` examples. -/
def querySampleSupport (n : Nat) : Finset Nat :=
  if n = 1 then {0} else Finset.range (n - 1)

/-- Modelled from the source: the number of draws `query_new_example`
makes for a pool of `n` examples — always 250 (with replacement) except for
the special-cased single-element pool. -/
def querySampleSize (n : Nat) : Nat := if n = 1 then 1 else 250

/-! ## `BaseNerTagger.save_example` (NER.py lines 285-306)

A raw token is a `(surface, pos, optional label)` triple: the tokeniser
produces 2-tuples and `save_example` rebuilds them as labelled 3-tuples,
modelled here by the third component going from `none` to `some tag`.  The
controller state carries the two pools and the current-selection slot
(`current_example_index` and `current_example`, set by the selection
methods). -/

/-- A pool example: the `{'raw': ..., 'features': ...}` dictionary of the
source, with `features` absent (`none`) until first computed. -/
structure PoolExample where
  raw : List (String × String × Option String)
  features : Option (List (List (String × FVal)))
deriving DecidableEq

/-- Project a raw token list to the `(surface, pos)` pairs that
`_sent2features` consumes. -/
def rawPairs (raw : List (String × String × Option String)) : List (String × String) :=
  raw.map (fun r => (r.1, r.2.1))

/-- The `BaseNerTagger` mutable state: unlabelled pool, labelled pool and
the current-selection slot. -/
structure BState where
  unlabelled : List PoolExample
  labelled : List PoolExample
  current_example_index : Nat
  current_example : PoolExample
deriving DecidableEq

/-- Embedding of `BaseNerTagger.save_example`.  A length mismatch between
the user correction and the current raw token sequence returns `False`
before touching any state; otherwise the current example is rebuilt with
the corrected tags (`zipWith` replaces the Python index loop, sound because
the lengths are equal), its features recomputed, the example appended to
the labelled pool and removed from the unlabelled pool by position.  The
Python success path falls off the end and returns `None`, modelled as the
inner `none`; the outer `none` models the `IndexError` that
`unlabelled.pop` raises for an out-of-range current index (in Python the
labelled append has already happened at that point — no claim exercises
this path). -/
def save_example (st : BState) (data : List (String × String)) :
    Option (Option Bool × BState) :=
  if data.length ≠ st.current_example.raw.length then some (some false, st)
  else if st.current_example_index < st.unlabelled.length then
    let toret := List.zipWith (fun (r : String × String × Option String) (d : String × String) =>
      (r.1, r.2.1, some d.2)) st.current_example.raw data
    let newEx : PoolExample := ⟨toret, some (sent2features (rawPairs toret))⟩
    some (none,
      ⟨st.unlabelled.eraseIdx st.current_example_index,
       st.labelled ++ [newEx],
       st.current_example_index,
       newEx⟩)
  else none

/-! ## `NerTagger.find_entities_in_text` scan (NER.py lines 596-650)

The method first runs the external tokeniser, feature extractor and
`model.predict_single`; the part of it embedded here is the left-to-right
scan over the resulting `(token, tag)` pairs that assembles entities.  The
tag-vocabulary dictionary `self.utmapping` is an association list; a
missing key makes Python raise `KeyError`, modelled as `none`. -/

/-- An extracted entity record `{'value': ..., 'entity': ...}`. -/
structure Entity where
  value : String
  entity : String
deriving DecidableEq

/-- Python dictionary lookup `um[k]` over an association list with distinct
keys. -/
def lookupTag (um : List (String × String)) (k : String) : Option String :=
  (um.find? (fun p => p.1 == k)).map Prod.snd

/-- The scan state of `find_entities_in_text`: the current entity tag
identifier `curr_ent` (initially "O"), the pending-span buffer `ent_toks`
and the accumulated `entities`. -/
structure ScanSt where
  curr_ent : String
  ent_toks : List String
  entities : List Entity
deriving DecidableEq

/-- One iteration of the `find_entities_in_text` scan loop on a
`(token, tag)` pair.  Branches mirror the source in order:
`B-` flushes a non-empty buffer (under the old `curr_ent`) then opens a new
one; `I-` appends unless `curr_ent` is "O" (then the token is dropped);
`L-` appends and flushes unless `curr_ent` is "O" (note the source leaves
`curr_ent` set after the flush); `U-` resets `curr_ent` and the buffer —
discarding, not flushing, any pending tokens — then emits the single-token
entity; a tag starting with "O" flushes a non-empty buffer and resets; any
other tag matches no branch and does nothing. -/
def entityStep (um : List (String × String)) (st : ScanSt) (txt tag : String) :
    Option ScanSt :=
  if pyStarts tag "B-" then
    if st.ent_toks.isEmpty then some ⟨tagSuffix tag, [txt], st.entities⟩
    else
      match lookupTag um st.curr_ent with
      | none => none
      | some nm => some ⟨tagSuffix tag, [txt], st.entities ++ [⟨joinSp st.ent_toks, nm⟩]⟩
  else if pyStarts tag "I-" then
    if st.curr_ent == "O" then some st
    else some ⟨st.curr_ent, st.ent_toks ++ [txt], st.entities⟩
  else if pyStarts tag "L-" then
    if st.curr_ent == "O" then some st
    else
      match lookupTag um st.curr_ent with
      | none => none
      | some nm =>
          some ⟨st.curr_ent, [], st.entities ++ [⟨joinSp (st.ent_toks ++ [txt]), nm⟩]⟩
  else if pyStarts tag "U-" then
    match lookupTag um (tagSuffix tag) with
    | none => none
    | some nm => some ⟨tagSuffix tag, [], st.entities ++ [⟨txt, nm⟩]⟩
  else if pyStarts tag "O" then
    if st.ent_toks.isEmpty then some ⟨"O", [], st.entities⟩
    else
      match lookupTag um st.curr_ent with
      | none => none
      | some nm => some ⟨"O", [], st.entities ++ [⟨joinSp st.ent_toks, nm⟩]⟩
  else some st

/-- The scan loop of `find_entities_in_text` over all `(token, tag)`
pairs. -/
def scanGo (um : List (String × String)) (st : ScanSt) :
    List (String × String) → Option ScanSt
  | [] => some st
  | (txt, tag) :: rest =>
    match entityStep um st txt tag with
    | none => none
    | some st2 => scanGo um st2 rest

/-- The flush after the loop: a non-empty leftover buffer is emitted as a
final entity. -/
def finalFlush (um : List (String × String)) (st : ScanSt) : Option (List Entity) :=
  if st.ent_toks.isEmpty then some st.entities
  else
    match lookupTag um st.curr_ent with
    | none => none
    | some nm => some (st.entities ++ [⟨joinSp st.ent_toks, nm⟩])

/-- The entity-extraction scan of `find_entities_in_text`, from the
`(token, predicted tag)` sequence to the entity list. -/
def find_entities_scan (um : List (String × String))
    (pairs : List (String × String)) : Option (List Entity) :=
  match scanGo um ⟨"O", [], []⟩ pairs with
  | none => none
  | some st => finalFlush um st

/-! ## Colors and `NerTagger` construction (NER.py lines 349-369, 447-469) -/

/-- The module-level color palette: the source string split on ", "
(its last entry keeps the trailing space of the Python literal). -/
def list_of_colors : List String :=
  ["#e6194B", "#3cb44b", "#ffe119", "#4363d8", "#f58231", "#911eb4", "#42d4f4",
   "#f032e6", "#bfef45", "#fabebe", "#469990", "#e6beff", "#9A6324", "#fffac8",
   "#800000", "#aaffc3", "#808000", "#ffd8b1", "#000075", "#a9a9a9 "]

/-- The tag-vocabulary state a `NerTagger` holds: the tag list and the
`utmapping` dictionary built from it (an association list from tag id to
display name). -/
structure NerSession where
  unique_tags : List (String × String)
  utmapping : List (String × String)
deriving DecidableEq

/-- Embedding of `NerTagger.__init__` restricted to its own state: it
stores the tag list and builds `utmapping`, performing no validation of the
tag count against the color palette (the external `BaseNerTagger` and Flask
app construction cannot fail on the tag count either). -/
def mkNerTagger (tags : List (String × String)) : NerSession := ⟨tags, tags⟩

/-- Embedding of `NerTagger._render_app_template`: with more tags than
colors it returns the literal error string instead of a rendered page;
otherwise it pairs each tag id with a color, positionally (the Jinja
template rendering itself is external — the embedding returns the
`css_classes` pairing that the template receives). -/
def render_app_template (uniqueTags : List (String × String)) :
    Except String (List (String × String)) :=
  if uniqueTags.length > list_of_colors.length then
    Except.error "Too many tags. Add more colors to list_of_colors"
  else
    Except.ok ((uniqueTags.map Prod.fst).zip list_of_colors)

/-- A concrete vocabulary of 21 tags, one more than the 20 available
colors. -/
def tags21 : List (String × String) :=
  [("T01", "N01"), ("T02", "N02"), ("T03", "N03"), ("T04", "N04"), ("T05", "N05"),
   ("T06", "N06"), ("T07", "N07"), ("T08", "N08"), ("T09", "N09"), ("T10", "N10"),
   ("T11", "N11"), ("T12", "N12"), ("T13", "N13"), ("T14", "N14"), ("T15", "N15"),
   ("T16", "N16"), ("T17", "N17"), ("T18", "N18"), ("T19", "N19"), ("T20", "N20"),
   ("T21", "N21")]

/-! ## The BILOU codec (NER.py lines 377-444)

`_generate_html_from_example` renders a labelled token sequence as a flat
sequence of `<span>` elements; `_get_bilou_tags_from_html` parses such a
sequence back to `(token, tag)` pairs.  The markup is modelled as the list
of span nodes in document order: a node carries its text, the
`(data-tag-id, data-tag)` attribute pair when the token is part of an
entity, and the presentational `class` attribute (set to the same tag and
never read back by the decoder). -/

/-- One `<span>` element of the rendered markup. -/
structure SpanNode where
  text : String
  mark : Option (Nat × String)
  cls : Option String
deriving DecidableEq

/-- The encoder loop of `_generate_html_from_example`: the source first
builds one span per token and then walks the tokens again assigning
attributes from each label; this single pass is the composition of the two
(the span built for token `i` only ever receives the attributes computed
from label `i`).  A label whose first character is B or I marks the span
with the running entity-instance counter without advancing it; L or U marks
the span and advances the counter; any other label (in the source "O")
leaves the span unmarked.  The Python code reads `tag[0]` and would raise
on an empty label; the valid label strings handled here are all
non-empty. -/
def genSpans : List (String × String × String) → Nat → List SpanNode
  | [], _ => []
  | tk :: rest, ctr =>
    match tk.2.2.data with
    | 'B' :: _ =>
        ⟨tk.1, some (ctr, tagSuffix tk.2.2), some (tagSuffix tk.2.2)⟩ :: genSpans rest ctr
    | 'I' :: _ =>
        ⟨tk.1, some (ctr, tagSuffix tk.2.2), some (tagSuffix tk.2.2)⟩ :: genSpans rest ctr
    | 'L' :: _ =>
        ⟨tk.1, some (ctr, tagSuffix tk.2.2), some (tagSuffix tk.2.2)⟩ :: genSpans rest (ctr + 1)
    | 'U' :: _ =>
        ⟨tk.1, some (ctr, tagSuffix tk.2.2), some (tagSuffix tk.2.2)⟩ :: genSpans rest (ctr + 1)
    | _ => ⟨tk.1, none, none⟩ :: genSpans rest ctr

/-- Embedding of `_generate_html_from_example` on a labelled example (each
token a `(surface, pos, label)` triple, so the `len(ex[0]) == 3` guard of
the source holds).  On the empty sequence the source evaluates `ex[0]` and
raises `IndexError`, modelled as `none`. -/
def generate_html_from_example (ex : List (String × String × String)) :
    Option (List SpanNode) :=
  match ex with
  | [] => none
  | _ :: _ => some (genSpans ex 0)

/-- The `data-tag-id` values of the marked spans, in document order — the
list over which the decoder builds its `Counter`. -/
def idsOf (items : List SpanNode) : List Nat :=
  items.filterMap (fun s => s.mark.map Prod.fst)

/-- The decoder's `Counter(tag_ids)[tid]`: how many marked spans carry the
instance identifier `tid`. -/
def counterOf (items : List SpanNode) (tid : Nat) : Nat := (idsOf items).count tid

/-- The while loop of `_get_bilou_tags_from_html`, with the group-size
function `cnt` (the `Counter` of the whole document) passed in.  An
unmarked span yields `(text, "O")` and advances by one.  A marked span with
group size 1 yields a U tag and advances by one.  A marked span with group
size `n ≥ 2` yields a B tag from itself, I tags from the next `n - 2`
spans, an L tag from span `n - 1` ahead, and advances by `n`; the source
indexes `items[index + i + 1]` and `items[index + size - 1]`, raising
`IndexError` when the document is shorter — modelled by the explicit length
guard returning `none`.  (For group size 0 — impossible when `cnt` counts a
document containing the span itself — the source would loop forever with a
negative index; here the guard shape makes that case return `none`.) -/
def decodeLoop (cnt : Nat → Nat) : List SpanNode → Option (List (String × String))
  | [] => some []
  | item :: rest =>
    match item.mark with
    | none =>
        match decodeLoop cnt rest with
        | none => none
        | some tl => some ((item.text, "O") :: tl)
    | some (tid, tag) =>
        if cnt tid = 1 then
          match decodeLoop cnt rest with
          | none => none
          | some tl => some ((item.text, "U-" ++ tag) :: tl)
        else if cnt tid - 1 ≤ rest.length ∧ 1 ≤ cnt tid then
          match (rest.take (cnt tid - 1)).getLast? with
          | none => none
          | some lastItem =>
              match decodeLoop cnt (rest.drop (cnt tid - 1)) with
              | none => none
              | some tl =>
                  some ((item.text, "B-" ++ tag) ::
                        ((rest.take (cnt tid - 2)).map (fun s => (s.text, "I-" ++ tag)) ++
                         ((lastItem.text, "L-" ++ tag) :: tl)))
        else none
  termination_by items => items.length
  decreasing_by
    all_goals simp only [List.length_cons, List.length_drop]
    all_goals omega

/-- Embedding of `_get_bilou_tags_from_html`: run the decoding loop with
the group sizes counted over the whole document. -/
def get_bilou_tags_from_html (items : List SpanNode) : Option (List (String × String)) :=
  decodeLoop (fun tid => counterOf items tid) items

/-- A valid BILOU labelling of a token sequence, as the claim states it:
every token is Outside, a standalone Unit, or part of a span that starts
with Begin, continues with zero or more same-tag Inside tokens and closes
with exactly one same-tag Last. -/
inductive ValidEx : List (String × String × String) → Prop
  | nil : ValidEx []
  | outside (tok pos : String) (rest : List (String × String × String))
      (h : ValidEx rest) : ValidEx ((tok, pos, "O") :: rest)
  | unit (tok pos t : String) (rest : List (String × String × String))
      (h : ValidEx rest) : ValidEx ((tok, pos, "U-" ++ t) :: rest)
  | span (tok pos lastTok lastPos t : String) (mids : List (String × String))
      (rest : List (String × String × String)) (h : ValidEx rest) :
      ValidEx ((tok, pos, "B-" ++ t) ::
        (mids.map (fun p => (p.1, p.2, "I-" ++ t)) ++ (lastTok, lastPos, "L-" ++ t) :: rest))

/-! ## Theorems -/

/-! ### C1 — BILOU round-trip: helper lemmas -/

/-- Unfolding: the decoder on the empty document. -/
theorem decodeLoop_nil (cnt : Nat → Nat) : decodeLoop cnt [] = some [] := by
  simp [decodeLoop]

/-- Unfolding: the decoder on an unmarked span. -/
theorem decodeLoop_plain (cnt : Nat → Nat) (txt : String) (c : Option String)
    (rest : List SpanNode) :
    decodeLoop cnt (⟨txt, none, c⟩ :: rest) =
      match decodeLoop cnt rest with
      | none => none
      | some tl => some ((txt, "O") :: tl) := by
  rw [decodeLoop]

/-- Unfolding: the decoder on a marked span whose group has size one. -/
theorem decodeLoop_unit (cnt : Nat → Nat) (txt : String) (tid : Nat) (tg : String)
    (c : Option String) (rest : List SpanNode) (h1 : cnt tid = 1) :
    decodeLoop cnt (⟨txt, some (tid, tg), c⟩ :: rest) =
      match decodeLoop cnt rest with
      | none => none
      | some tl => some ((txt, "U-" ++ tg) :: tl) := by
  rw [decodeLoop]
  simp [h1]

/-- Unfolding: the decoder on a marked span whose group has size `k + 2`
and whose group members (`k` middles and a last) are next in the
document. -/
theorem decodeLoop_group (cnt : Nat → Nat) (txt : String) (tid : Nat) (tg : String)
    (c : Option String) (M : List SpanNode) (L : SpanNode) (T : List SpanNode)
    (k : Nat) (hM : M.length = k) (h2 : cnt tid = k + 2) :
    decodeLoop cnt (⟨txt, some (tid, tg), c⟩ :: (M ++ L :: T)) =
      match decodeLoop cnt T with
      | none => none
      | some tl =>
          some ((txt, "B-" ++ tg) ::
                (M.map (fun s => (s.text, "I-" ++ tg)) ++ ((L.text, "L-" ++ tg) :: tl))) := by
  rw [decodeLoop]
  have hne : ¬ (cnt tid = 1) := by omega
  have hlen : cnt tid - 1 ≤ (M ++ L :: T).length ∧ 1 ≤ cnt tid := by
    constructor
    · simp [h2, List.length_append, hM]
    · omega
  have htake1 : (M ++ L :: T).take (cnt tid - 1) = M ++ [L] := by
    have h : cnt tid - 1 = M.length + 1 := by omega
    rw [h, List.take_append_eq_append_take]
    simp
  have htake2 : (M ++ L :: T).take (cnt tid - 2) = M := by
    have h : cnt tid - 2 = M.length := by omega
    rw [h, List.take_left]
  have hdrop : (M ++ L :: T).drop (cnt tid - 1) = T := by
    have h : cnt tid - 1 = M.length + 1 := by omega
    rw [h, List.drop_append_eq_append_drop]
    simp
  simp only [if_neg hne, if_pos hlen, htake1, htake2, hdrop, List.getLast?_concat]

/-- Unfolding: the encoder on an Outside token. -/
theorem genSpans_O (tok pos : String) (rest : List (String × String × String)) (ctr : Nat) :
    genSpans ((tok, pos, "O") :: rest) ctr = ⟨tok, none, none⟩ :: genSpans rest ctr := rfl

/-- Unfolding: the encoder on a Unit token advances the instance counter. -/
theorem genSpans_U (tok pos t : String) (rest : List (String × String × String)) (ctr : Nat) :
    genSpans ((tok, pos, "U-" ++ t) :: rest) ctr =
      ⟨tok, some (ctr, t), some t⟩ :: genSpans rest (ctr + 1) := by
  obtain ⟨l⟩ := t
  rfl

/-- Unfolding: the encoder on a Begin token keeps the instance counter. -/
theorem genSpans_B (tok pos t : String) (rest : List (String × String × String)) (ctr : Nat) :
    genSpans ((tok, pos, "B-" ++ t) :: rest) ctr =
      ⟨tok, some (ctr, t), some t⟩ :: genSpans rest ctr := by
  obtain ⟨l⟩ := t
  rfl

/-- Unfolding: the encoder on an Inside token keeps the instance counter. -/
theorem genSpans_I (tok pos t : String) (rest : List (String × String × String)) (ctr : Nat) :
    genSpans ((tok, pos, "I-" ++ t) :: rest) ctr =
      ⟨tok, some (ctr, t), some t⟩ :: genSpans rest ctr := by
  obtain ⟨l⟩ := t
  rfl

/-- Unfolding: the encoder on a Last token advances the instance counter. -/
theorem genSpans_L (tok pos t : String) (rest : List (String × String × String)) (ctr : Nat) :
    genSpans ((tok, pos, "L-" ++ t) :: rest) ctr =
      ⟨tok, some (ctr, t), some t⟩ :: genSpans rest (ctr + 1) := by
  obtain ⟨l⟩ := t
  rfl

/-- The encoder on the middles-then-last tail of a span: all members are
marked with the current instance counter, and the counter advances only
after the Last token. -/
theorem genSpans_midsL (t lastTok lastPos : String) (mids : List (String × String))
    (rest : List (String × String × String)) (ctr : Nat) :
    genSpans (mids.map (fun p => (p.1, p.2, "I-" ++ t)) ++
        (lastTok, lastPos, "L-" ++ t) :: rest) ctr =
      mids.map (fun p => (⟨p.1, some (ctr, t), some t⟩ : SpanNode)) ++
        ⟨lastTok, some (ctr, t), some t⟩ :: genSpans rest (ctr + 1) := by
  induction mids with
  | nil => simpa using genSpans_L lastTok lastPos t rest ctr
  | cons m ms ih => simp only [List.map_cons, List.cons_append, genSpans_I, ih]

/-- The encoder on a whole Begin-to-Last span. -/
theorem genSpans_span (tok pos lastTok lastPos t : String) (mids : List (String × String))
    (rest : List (String × String × String)) (ctr : Nat) :
    genSpans ((tok, pos, "B-" ++ t) ::
        (mids.map (fun p => (p.1, p.2, "I-" ++ t)) ++ (lastTok, lastPos, "L-" ++ t) :: rest)) ctr =
      ⟨tok, some (ctr, t), some t⟩ ::
        (mids.map (fun p => (⟨p.1, some (ctr, t), some t⟩ : SpanNode)) ++
          ⟨lastTok, some (ctr, t), some t⟩ :: genSpans rest (ctr + 1)) := by
  rw [genSpans_B, genSpans_midsL]

/-- `idsOf` on an unmarked span. -/
theorem idsOf_cons_none (txt : String) (c : Option String) (l : List SpanNode) :
    idsOf (⟨txt, none, c⟩ :: l) = idsOf l := by
  simp [idsOf]

/-- `idsOf` on a marked span. -/
theorem idsOf_cons_some (txt : String) (i : Nat) (tg : String) (c : Option String)
    (l : List SpanNode) :
    idsOf (⟨txt, some (i, tg), c⟩ :: l) = i :: idsOf l := by
  simp [idsOf]

/-- `idsOf` distributes over append. -/
theorem idsOf_append (a b : List SpanNode) : idsOf (a ++ b) = idsOf a ++ idsOf b := by
  simp [idsOf]

/-- `idsOf` of the encoded middles of a span: the instance id, repeated. -/
theorem idsOf_map_marked (mids : List (String × String)) (ctr : Nat) (t : String) :
    idsOf (mids.map (fun p => (⟨p.1, some (ctr, t), some t⟩ : SpanNode))) =
      List.replicate mids.length ctr := by
  induction mids with
  | nil => rfl
  | cons m ms ih =>
      simp only [List.map_cons, idsOf_cons_some, ih, List.length_cons, List.replicate_succ]

/-- Every instance id the encoder assigns from counter value `ctr` onwards
is at least `ctr`. -/
theorem idsOf_genSpans_ge (ex : List (String × String × String)) (hv : ValidEx ex) :
    ∀ (ctr i : Nat), i ∈ idsOf (genSpans ex ctr) → ctr ≤ i := by
  induction hv with
  | nil =>
      intro ctr i hi
      simp [genSpans, idsOf] at hi
  | outside tok pos rest h ih =>
      intro ctr i hi
      rw [genSpans_O, idsOf_cons_none] at hi
      exact ih ctr i hi
  | unit tok pos t rest h ih =>
      intro ctr i hi
      rw [genSpans_U, idsOf_cons_some] at hi
      rcases List.mem_cons.mp hi with h1 | h1
      · omega
      · have := ih (ctr + 1) i h1
        omega
  | span tok pos lastTok lastPos t mids rest h ih =>
      intro ctr i hi
      rw [genSpans_span, idsOf_cons_some, idsOf_append, idsOf_map_marked,
        idsOf_cons_some] at hi
      rcases List.mem_cons.mp hi with h1 | h1
      · omega
      rcases List.mem_append.mp h1 with h2 | h2
      · have := List.eq_of_mem_replicate h2
        omega
      rcases List.mem_cons.mp h2 with h3 | h3
      · omega
      · have := ih (ctr + 1) i h3
        omega

/-- The decoding loop inverts the encoder on any validly labelled
sequence, for every group-size function that agrees with the id counts of
the encoded document on all ids from the starting counter value upwards
(the top-level decoder passes exactly the document counts). -/
theorem decodeLoop_genSpans (ex : List (String × String × String)) (hv : ValidEx ex) :
    ∀ (ctr : Nat) (cnt : Nat → Nat),
      (∀ tid, ctr ≤ tid → cnt tid = (idsOf (genSpans ex ctr)).count tid) →
      decodeLoop cnt (genSpans ex ctr) = some (ex.map (fun tk => (tk.1, tk.2.2))) := by
  induction hv with
  | nil =>
      intro ctr cnt hcnt
      simp [genSpans, decodeLoop_nil]
  | outside tok pos rest h ih =>
      intro ctr cnt hcnt
      rw [genSpans_O, decodeLoop_plain]
      have hcnt2 : ∀ tid, ctr ≤ tid → cnt tid = (idsOf (genSpans rest ctr)).count tid := by
        intro tid htid
        have hh := hcnt tid htid
        rwa [genSpans_O, idsOf_cons_none] at hh
      rw [ih ctr cnt hcnt2]
      simp
  | unit tok pos t rest h ih =>
      intro ctr cnt hcnt
      have hnotin : ctr ∉ idsOf (genSpans rest (ctr + 1)) := by
        intro hm
        have := idsOf_genSpans_ge rest h (ctr + 1) ctr hm
        omega
      have h1 : cnt ctr = 1 := by
        have hh := hcnt ctr (Nat.le_refl ctr)
        rwa [genSpans_U, idsOf_cons_some, List.count_cons_self,
          List.count_eq_zero_of_not_mem hnotin] at hh
      rw [genSpans_U, decodeLoop_unit _ _ _ _ _ _ h1]
      have hcnt2 : ∀ tid, ctr + 1 ≤ tid →
          cnt tid = (idsOf (genSpans rest (ctr + 1))).count tid := by
        intro tid htid
        have hh := hcnt tid (by omega)
        rwa [genSpans_U, idsOf_cons_some, List.count_cons_of_ne (by omega)] at hh
      rw [ih (ctr + 1) cnt hcnt2]
      simp
  | span tok pos lastTok lastPos t mids rest h ih =>
      intro ctr cnt hcnt
      have hnotin : ctr ∉ idsOf (genSpans rest (ctr + 1)) := by
        intro hm
        have := idsOf_genSpans_ge rest h (ctr + 1) ctr hm
        omega
      have hsize : cnt ctr = mids.length + 2 := by
        have hh := hcnt ctr (Nat.le_refl ctr)
        rw [genSpans_span, idsOf_cons_some, idsOf_append, idsOf_map_marked,
          idsOf_cons_some, List.count_cons_self, List.count_append,
          List.count_replicate_self, List.count_cons_self,
          List.count_eq_zero_of_not_mem hnotin] at hh
        omega
      rw [genSpans_span,
        decodeLoop_group cnt tok ctr t (some t)
          (mids.map (fun p => (⟨p.1, some (ctr, t), some t⟩ : SpanNode)))
          ⟨lastTok, some (ctr, t), some t⟩ (genSpans rest (ctr + 1))
          mids.length (by simp) hsize]
      have hcnt2 : ∀ tid, ctr + 1 ≤ tid →
          cnt tid = (idsOf (genSpans rest (ctr + 1))).count tid := by
        intro tid htid
        have hrep : tid ∉ List.replicate mids.length ctr := by
          intro hm
          have := List.eq_of_mem_replicate hm
          omega
        have hh := hcnt tid (by omega)
        rw [genSpans_span, idsOf_cons_some, idsOf_append, idsOf_map_marked,
          idsOf_cons_some, List.count_cons_of_ne (by omega), List.count_append,
          List.count_cons_of_ne (by omega),
          List.count_eq_zero_of_not_mem hrep] at hh
        omega
      rw [ih (ctr + 1) cnt hcnt2]
      simp [List.map_map]

/-- C1 counterexample: the empty token sequence carries a (vacuously) valid
BILOU label sequence, yet the encoder evaluates `ex[0]` and raises
`IndexError` (modelled as `none`), so decoding the produced markup does not
reproduce the original (empty) label sequence. -/
theorem bilou_roundtrip_counterexample :
    ValidEx [] ∧
    (generate_html_from_example []).bind get_bilou_tags_from_html ≠
      some (([] : List (String × String × String)).map (fun tk => (tk.1, tk.2.2))) := by
  constructor
  · exact ValidEx.nil
  · simp [generate_html_from_example]

/-- C1 (amended): for every NON-EMPTY token sequence carrying a valid BILOU
label sequence, decoding the markup produced by encoding the sequence
reproduces the original per-token tags exactly. -/
theorem bilou_roundtrip (ex : List (String × String × String)) (hne : ex ≠ [])
    (hv : ValidEx ex) :
    (generate_html_from_example ex).bind get_bilou_tags_from_html =
      some (ex.map (fun tk => (tk.1, tk.2.2))) := by
  cases ex with
  | nil => exact absurd rfl hne
  | cons e es =>
      show (some (genSpans (e :: es) 0)).bind get_bilou_tags_from_html = _
      rw [Option.some_bind]
      exact decodeLoop_genSpans (e :: es) hv 0 _ (fun tid _ => rfl)

/-- Witness for C1: the round-trip at a concrete four-token sequence with a
two-token Professor span, an Outside token and a Unit course code. -/
theorem bilou_roundtrip_witness :
    (generate_html_from_example
        [("John", "NNP", "B-PROF"), ("Smith", "NNP", "L-PROF"),
         ("teaches", "VBZ", "O"), ("CS101", "NN", "U-CC")]).bind
        get_bilou_tags_from_html =
      some [("John", "B-PROF"), ("Smith", "L-PROF"), ("teaches", "O"),
            ("CS101", "U-CC")] := by
  have hv : ValidEx
      [("John", "NNP", "B-PROF"), ("Smith", "NNP", "L-PROF"),
       ("teaches", "VBZ", "O"), ("CS101", "NN", "U-CC")] := by
    have hspan := ValidEx.span "John" "NNP" "Smith" "NNP" "PROF" []
      [("teaches", "VBZ", "O"), ("CS101", "NN", "U-CC")]
      (ValidEx.outside "teaches" "VBZ" _
        (ValidEx.unit "CS101" "NN" "CC" [] ValidEx.nil))
    exact hspan
  have h := bilou_roundtrip
    [("John", "NNP", "B-PROF"), ("Smith", "NNP", "L-PROF"),
     ("teaches", "VBZ", "O"), ("CS101", "NN", "U-CC")]
    (by simp) hv
  simpa using h

/-! ### C3 — alphanumeric classifier table -/

/-- C3 counterexample: the claim says the classifier sends "a!1" to the
empty string, but the source sends it to ALPHA_NUM — the two-end check adds
1 for the trailing digit and subtracts 1 for the leading letter, and the
middle character is never inspected. -/
theorem alphanum_table_counterexample :
    is_alpha_and_numeric "a!1" = "ALPHA_NUM" ∧ is_alpha_and_numeric "a!1" ≠ "" := by
  constructor
  · rfl
  · decide

/-- C3 (amended): the classification table of
`BaseNerTagger._is_alpha_and_numeric`, with the single amendment that
"a!1" classifies as ALPHA_NUM (its first character is a letter and its last
a digit, which cancel in the two-end check), not as the empty string. -/
theorem alphanum_table_amended :
    is_alpha_and_numeric "123" = "DIGIT" ∧
    is_alpha_and_numeric "ABC" = "ALPHA_UPPER" ∧
    is_alpha_and_numeric "abc" = "ALPHA_LOWER" ∧
    is_alpha_and_numeric "Abc" = "ALPHA" ∧
    is_alpha_and_numeric "a1" = "ALPHA_NUM" ∧
    is_alpha_and_numeric "" = "EMPTY" ∧
    is_alpha_and_numeric "a!1" = "ALPHA_NUM" := by
  refine ⟨rfl, rfl, rfl, rfl, rfl, rfl, rfl⟩

/-! ### C9 — feature extractor boundary behaviour -/

/-- C9: on the sequence [("Dr", "NNP"), ("Smith", "NNP")] the feature
mapping of `_word2features` at index 0 contains BOS = true and no key
beginning with "-1:", and the mapping at index 1 contains EOS = true and
the neighbour feature "-1:word.lower()" with value "dr". -/
theorem feature_extractor_boundary_spec :
    ("BOS", FVal.b true) ∈ word2features [("Dr", "NNP"), ("Smith", "NNP")] 0 ∧
    (word2features [("Dr", "NNP"), ("Smith", "NNP")] 0).all
      (fun kv => !pyStarts kv.1 "-1:") = true ∧
    ("EOS", FVal.b true) ∈ word2features [("Dr", "NNP"), ("Smith", "NNP")] 1 ∧
    ("-1:word.lower()", FVal.s "dr") ∈ word2features [("Dr", "NNP"), ("Smith", "NNP")] 1 := by
  refine ⟨by decide, by decide, by decide, by decide⟩

/-! ### C2 — query subsample eligibility -/

/-- C2 (code bug): for every pool of at least two unlabelled examples the
last pool index `n - 1` is a real index of the pool yet can never appear in
the subsample drawn by `query_new_example`, because
`np.random.randint(0, n - 1, size=250)` excludes its upper bound; moreover
the sample size stays 250 even for pools smaller than 250 (shown at
`n = 10`), so the subsample is never "the whole pool" as the claim states. -/
theorem query_sample_excludes_last_index (n : Nat) (h : 2 ≤ n) :
    (n - 1) ∉ querySampleSupport n ∧
    (n - 1) ∈ Finset.range n ∧
    querySampleSize 10 = 250 := by
  refine ⟨?_, ?_, rfl⟩
  · have hn : n ≠ 1 := by omega
    simp [querySampleSupport, hn]
  · simp only [Finset.mem_range]
    omega

/-- Witness for C2 at the failing input: a pool of exactly two examples,
whose second (last) index 1 is never eligible. -/
theorem query_sample_excludes_last_index_witness :
    1 ∉ querySampleSupport 2 ∧ 1 ∈ Finset.range 2 ∧ querySampleSize 10 = 250 := by
  have h := query_sample_excludes_last_index 2 (by omega)
  simpa using h

/-! ### C6 — uncertainty scorer -/

/-- C6: the uncertainty scorer of `_get_prediction_uncertainity` is
label-permutation invariant (the entropy of a token distribution depends
only on the multiset of probability values), a token with distribution
{A: 1.0} has entropy 0, per-token entropies [0, 0, 1.2] reduce to 1.2 under
mode "max" and to 0.4 under mode "mean", and an example with zero tokens
scores 0 in every mode. -/
theorem uncertainty_scorer_spec :
    (∀ l1 l2 : List ℝ, l1.Perm l2 → tokenEntropy l1 = tokenEntropy l2) ∧
    tokenEntropy [1] = 0 ∧
    reduceUncertainty [0, 0, 1.2] "max" = some 1.2 ∧
    reduceUncertainty [0, 0, 1.2] "mean" = some 0.4 ∧
    (∀ mode : String, get_prediction_uncertainity [] mode = some 0) ∧
    (∀ (pred : List (List ℝ)) (mode : String), pred ≠ [] →
      get_prediction_uncertainity pred mode =
        reduceUncertainty (pred.map tokenEntropy) mode) := by
  refine ⟨?_, ?_, ?_, ?_, ?_, ?_⟩
  · intro l1 l2 hp
    have hs : l1.sum = l2.sum := hp.sum_eq
    have hm : (l1.map (fun p => entr (p / l2.sum))).Perm
        (l2.map (fun p => entr (p / l2.sum))) := hp.map _
    unfold tokenEntropy
    rw [hs]
    exact hm.sum_eq
  · simp [tokenEntropy, entr]
  · have h1 : max (0 : ℝ) 0 = 0 := by norm_num
    have h2 : max (0 : ℝ) 1.2 = 1.2 := by norm_num
    simp only [reduceUncertainty, if_pos rfl, pymax, List.foldl, h1, h2]
    simp
  · have hne : ("mean" : String) ≠ "max" := by decide
    simp only [reduceUncertainty, if_neg hne, if_pos rfl, List.sum_cons, List.sum_nil,
      List.length_cons, List.length_nil]
    norm_num
  · intro mode
    simp [get_prediction_uncertainity]
  · intro pred mode hne
    have : pred.length ≠ 0 := by
      intro h
      exact hne (List.length_eq_zero.mp h)
    simp [get_prediction_uncertainity, this]

/-- Witness for C6: the permutation clause at the concrete pair
[0.3, 0.7] ~ [0.7, 0.3] and the nonempty clause at the one-token
prediction [[1]]. -/
theorem uncertainty_scorer_spec_witness :
    tokenEntropy [(0.3 : ℝ), 0.7] = tokenEntropy [0.7, 0.3] ∧
    get_prediction_uncertainity [[(1 : ℝ)]] "max" =
      reduceUncertainty ([[(1 : ℝ)]].map tokenEntropy) "max" := by
  constructor
  · exact uncertainty_scorer_spec.1 _ _ (List.Perm.swap _ _ _)
  · exact uncertainty_scorer_spec.2.2.2.2.2 _ _ (by simp)

/-! ### C7 — rejected correction mutates nothing -/

/-- C7: a correction whose length differs from the current example token
count makes `save_example` return the failure signal `False` with the whole
state — both pools, the current-selection slot and the current example
tokens and features — unchanged. -/
theorem save_example_mismatch_rejected (st : BState) (data : List (String × String))
    (h : data.length ≠ st.current_example.raw.length) :
    save_example st data = some (some false, st) := by
  simp [save_example, h]

/-- Witness for C7: a one-tag correction against an empty current example
is rejected and the state comes back identical. -/
theorem save_example_mismatch_rejected_witness :
    save_example ⟨[⟨[], none⟩], [], 0, ⟨[], none⟩⟩ [("x", "T")] =
      some (some false, ⟨[⟨[], none⟩], [], 0, ⟨[], none⟩⟩) :=
  save_example_mismatch_rejected _ _ (by decide)

/-! ### C10 — accepted correction preserves the pool-size sum -/

/-- C10: an accepted correction (matching length, current index in range)
returns the Python success value `None`, appends exactly one example to the
labelled pool and removes exactly one from the unlabelled pool, so the sum
of the two pool sizes is preserved. -/
theorem save_example_accept_pools (st : BState) (data : List (String × String))
    (hlen : data.length = st.current_example.raw.length)
    (hidx : st.current_example_index < st.unlabelled.length) :
    (save_example st data).map
        (fun p => (p.1, p.2.labelled.length, p.2.unlabelled.length)) =
      some (none, st.labelled.length + 1, st.unlabelled.length - 1) ∧
    (st.labelled.length + 1) + (st.unlabelled.length - 1) =
      st.labelled.length + st.unlabelled.length := by
  constructor
  · have hne : ¬ data.length ≠ st.current_example.raw.length := by omega
    simp only [save_example, if_neg hne, if_pos hidx, Option.map_some]
    have herase : (st.unlabelled.eraseIdx st.current_example_index).length =
        st.unlabelled.length - 1 := by
      rw [List.length_eraseIdx]
      simp [hidx]
    simp [herase]
  · omega

/-- Witness for C10: accepting the empty correction for an empty current
example moves the single unlabelled example into the labelled pool. -/
theorem save_example_accept_pools_witness :
    (save_example ⟨[⟨[], none⟩], [], 0, ⟨[], none⟩⟩ []).map
        (fun p => (p.1, p.2.labelled.length, p.2.unlabelled.length)) =
      some (none, 1, 0) ∧ 1 + 0 = 0 + 1 := by
  have h := save_example_accept_pools ⟨[⟨[], none⟩], [], 0, ⟨[], none⟩⟩ []
    (by decide) (by decide)
  simpa using h

/-! ### C8 — concrete extraction example -/

/-- C8: the extraction scan on the tag sequence
[O, B-PROF, I-PROF, L-PROF, O, U-CC] over the tokens
[the, John, A, Smith, teaches, CS101], with PROF mapped to "Professor" and
CC to "Course Code", yields exactly the entities
{value: "John A Smith", entity: "Professor"} then
{value: "CS101", entity: "Course Code"}. -/
theorem extraction_example_spec :
    find_entities_scan [("PROF", "Professor"), ("CC", "Course Code")]
      [("the", "O"), ("John", "B-PROF"), ("A", "I-PROF"), ("Smith", "L-PROF"),
       ("teaches", "O"), ("CS101", "U-CC")] =
      some [⟨"John A Smith", "Professor"⟩, ⟨"CS101", "Course Code"⟩] := by
  rfl

/-! ### C5 — tag-vocabulary overflow -/

/-- C5 counterexample: with 21 tags and 20 colors, constructing the session
succeeds (the constructor performs no validation and returns its state),
and the overflow only surfaces later, when `_render_app_template` returns
an error string instead of a page. -/
theorem tag_overflow_counterexample :
    mkNerTagger tags21 = ⟨tags21, tags21⟩ ∧
    list_of_colors.length < tags21.length ∧
    render_app_template tags21 =
      Except.error "Too many tags. Add more colors to list_of_colors" := by
  refine ⟨rfl, by decide, rfl⟩

/-- C5 (amended): construction never validates the tag count and always
succeeds; a vocabulary larger than the 20-color palette is only rejected
later, by `_render_app_template`, which returns the error string
"Too many tags. Add more colors to list_of_colors" instead of a rendered
page. -/
theorem tag_overflow_amended (tags : List (String × String))
    (h : list_of_colors.length < tags.length) :
    mkNerTagger tags = ⟨tags, tags⟩ ∧
    render_app_template tags =
      Except.error "Too many tags. Add more colors to list_of_colors" := by
  refine ⟨rfl, ?_⟩
  simp [render_app_template, h]

/-- Witness for C5 at the 21-tag vocabulary. -/
theorem tag_overflow_amended_witness :
    mkNerTagger tags21 = ⟨tags21, tags21⟩ ∧
    render_app_template tags21 =
      Except.error "Too many tags. Add more colors to list_of_colors" :=
  tag_overflow_amended tags21 (by decide)

/-! ### C4 — Unit tag with an open buffer -/

/-- C4 counterexample: on [("John", "B-PROF"), ("CS101", "U-CC")] the span
buffer holding "John" is open when the Unit tag arrives, yet the output
contains only the Unit entity — the claimed flushed entity
{value: "John", entity: "Professor"} never appears, because the `U-`
branch of the source clears `ent_toks` without emitting it. -/
theorem unit_flush_counterexample :
    find_entities_scan [("PROF", "Professor"), ("CC", "Course Code")]
      [("John", "B-PROF"), ("CS101", "U-CC")] =
      some [⟨"CS101", "Course Code"⟩] ∧
    Entity.mk "John" "Professor" ∉
      [Entity.mk "CS101" "Course Code"] := by
  exact ⟨rfl, by decide⟩

/-- `charsStart` with an exhausted pattern is true. -/
theorem charsStart_nil (s : List Char) : charsStart s [] = true := by
  cases s <;> rfl

/-- C4 (amended): a Unit tag encountered while the span buffer is open
DISCARDS the pending buffer without emitting it, then emits the
single-token Unit entity — only the Unit entity is appended to the
output. -/
theorem unit_discards_open_buffer (um : List (String × String)) (st : ScanSt)
    (txt t name : String) (hbuf : st.ent_toks ≠ [])
    (hlk : lookupTag um t = some name) :
    entityStep um st txt ("U-" ++ t) =
      some ⟨t, [], st.entities ++ [⟨txt, name⟩]⟩ := by
  obtain ⟨l⟩ := t
  have hB : pyStarts ("U-" ++ ⟨l⟩) "B-" = false := rfl
  have hI : pyStarts ("U-" ++ ⟨l⟩) "I-" = false := rfl
  have hL : pyStarts ("U-" ++ ⟨l⟩) "L-" = false := rfl
  have hU : pyStarts ("U-" ++ ⟨l⟩) "U-" = true := by
    show charsStart ('U' :: '-' :: l) ['U', '-'] = true
    simp [charsStart, charsStart_nil]
  have hsuf : tagSuffix ("U-" ++ ⟨l⟩) = ⟨l⟩ := rfl
  simp only [entityStep, hB, hI, hL, hU, hsuf, Bool.false_eq_true, if_false, if_true, hlk]

/-- Witness for C4: the step on the Unit tag "U-CC" with the buffer
["John"] open discards "John" and emits only the course-code entity. -/
theorem unit_discards_open_buffer_witness :
    entityStep [("PROF", "Professor"), ("CC", "Course Code")]
      ⟨"PROF", ["John"], []⟩ "CS101" "U-CC" =
      some ⟨"CC", [], [⟨"CS101", "Course Code"⟩]⟩ := by
  have h := unit_discards_open_buffer [("PROF", "Professor"), ("CC", "Course Code")]
    ⟨"PROF", ["John"], []⟩ "CS101" "CC" "Course Code" (by simp) rfl
  simpa using h
